import Mathlib

/-!
Verification of the WALL-E AI control interface
(src/wall-e/AI_Control_Interface.hpp).

The header is a command encoder: each method formats one motor command as a
text line `TOKEN:<magnitude>` (or a bare token for the two parameterless
commands) and writes it to an injected serial sink.  We embed the class as a
state-passing program over an explicit world of sinks.  Magnitudes are
embedded as rationals; the transport's write call, which may fail, is
modelled with an acceptance oracle, and the host's numeric formatting
(Arduino two-decimal float printing) is modelled from the spec since the
Print library is not part of the repository.
-/

namespace WallE

/-- Identifier of an output sink (a serial transport handle). -/
abbrev SinkId := Nat

/-- State of one serial sink: the bytes the transport has accepted so far and
the number of write calls attempted on it, whether or not they succeeded. -/
structure Sink where
  written : String
  attempts : Nat
deriving DecidableEq

/-- The world the encoder writes into: per-sink transport state together with
an acceptance oracle saying whether the n-th write attempt on a sink is
accepted.  The oracle models the spec's single failure class, the transport
rejecting a write. -/
structure World where
  ok : SinkId → Nat → Bool
  sinks : SinkId → Sink

/-- Modelled from the spec: one raw write call on the transport.  If the
transport accepts the attempt the bytes are appended and their count is
returned, otherwise nothing is written and 0 is returned; either way the
attempt is counted.  The header discards this returned count. -/
def World.write (w : World) (id : SinkId) (s : String) : World × Nat :=
  if w.ok id (w.sinks id).attempts then
    ({ w with sinks := Function.update w.sinks id (Sink.mk ((w.sinks id).written ++ s) ((w.sinks id).attempts + 1)) }, s.length)
  else
    ({ w with sinks := Function.update w.sinks id (Sink.mk (w.sinks id).written ((w.sinks id).attempts + 1)) }, 0)

/-- Modelled from the spec: the host's default floating-point text formatting
(Arduino printing with two fractional digits) of a nonnegative magnitude:
integer part, a dot, then two decimal digits, after rounding half up.  The
Print library code implementing this is not part of the repository. -/
def fmt2 (q : ℚ) : String :=
  let r : ℚ := q * 100 + 1 / 2
  let n : Nat := r.num.toNat / r.den
  Nat.repr (n / 100) ++ ("." ++ Nat.repr (n / 10 % 10) ++ Nat.repr (n % 10))

/-- Modelled from the spec: default numeric formatting of a signed magnitude,
sign included exactly when the value is negative. -/
def fmtF (q : ℚ) : String :=
  if q < 0 then "-" ++ fmt2 (-q) else fmt2 q

/-- Modelled from the spec: the transport's print call, writing a string with
no terminator.  The numeric result is the transport's per-write result. -/
def HardwareSerial.print (w : World) (id : SinkId) (s : String) : World × Nat :=
  w.write id s

/-- Modelled from the spec: println on a string appends the line
terminator. -/
def HardwareSerial.printlnS (w : World) (id : SinkId) (s : String) : World × Nat :=
  w.write id (s ++ "\n")

/-- Modelled from the spec: println on a magnitude formats it with the
default numeric formatting and appends the line terminator. -/
def HardwareSerial.printlnF (w : World) (id : SinkId) (q : ℚ) : World × Nat :=
  w.write id (fmtF q ++ "\n")

/-- The encoder class.  Its only field is the serial port handle injected at
construction. -/
structure WallEAI where
  serialPort : SinkId
deriving DecidableEq

/-- Rotate head left/right by degrees. -/
def WallEAI.rotateHead (ai : WallEAI) (degrees : ℚ) (w : World) : WallEAI × World :=
  let w1 := (HardwareSerial.print w ai.serialPort "HEAD_ROTATE:").1
  let w2 := (HardwareSerial.printlnF w1 ai.serialPort degrees).1
  (ai, w2)

/-- Move neck top joint up/down by degrees. -/
def WallEAI.moveNeckTop (ai : WallEAI) (degrees : ℚ) (w : World) : WallEAI × World :=
  let w1 := (HardwareSerial.print w ai.serialPort "NECK_TOP:").1
  let w2 := (HardwareSerial.printlnF w1 ai.serialPort degrees).1
  (ai, w2)

/-- Move neck bottom joint up/down by degrees. -/
def WallEAI.moveNeckBottom (ai : WallEAI) (degrees : ℚ) (w : World) : WallEAI × World :=
  let w1 := (HardwareSerial.print w ai.serialPort "NECK_BOTTOM:").1
  let w2 := (HardwareSerial.printlnF w1 ai.serialPort degrees).1
  (ai, w2)

/-- Move right eye up/down by degrees. -/
def WallEAI.moveRightEye (ai : WallEAI) (degrees : ℚ) (w : World) : WallEAI × World :=
  let w1 := (HardwareSerial.print w ai.serialPort "RIGHT_EYE:").1
  let w2 := (HardwareSerial.printlnF w1 ai.serialPort degrees).1
  (ai, w2)

/-- Move left eye up/down by degrees. -/
def WallEAI.moveLeftEye (ai : WallEAI) (degrees : ℚ) (w : World) : WallEAI × World :=
  let w1 := (HardwareSerial.print w ai.serialPort "LEFT_EYE:").1
  let w2 := (HardwareSerial.printlnF w1 ai.serialPort degrees).1
  (ai, w2)

/-- Move left arm up/down by degrees. -/
def WallEAI.moveLeftArm (ai : WallEAI) (degrees : ℚ) (w : World) : WallEAI × World :=
  let w1 := (HardwareSerial.print w ai.serialPort "LEFT_ARM:").1
  let w2 := (HardwareSerial.printlnF w1 ai.serialPort degrees).1
  (ai, w2)

/-- Move right arm up/down by degrees. -/
def WallEAI.moveRightArm (ai : WallEAI) (degrees : ℚ) (w : World) : WallEAI × World :=
  let w1 := (HardwareSerial.print w ai.serialPort "RIGHT_ARM:").1
  let w2 := (HardwareSerial.printlnF w1 ai.serialPort degrees).1
  (ai, w2)

/-- Rotate left wheel by degrees. -/
def WallEAI.rotateLeftWheel (ai : WallEAI) (degrees : ℚ) (w : World) : WallEAI × World :=
  let w1 := (HardwareSerial.print w ai.serialPort "LEFT_WHEEL:").1
  let w2 := (HardwareSerial.printlnF w1 ai.serialPort degrees).1
  (ai, w2)

/-- Rotate right wheel by degrees. -/
def WallEAI.rotateRightWheel (ai : WallEAI) (degrees : ℚ) (w : World) : WallEAI × World :=
  let w1 := (HardwareSerial.print w ai.serialPort "RIGHT_WHEEL:").1
  let w2 := (HardwareSerial.printlnF w1 ai.serialPort degrees).1
  (ai, w2)

/-- Stop all motors. -/
def WallEAI.stopAll (ai : WallEAI) (w : World) : WallEAI × World :=
  (ai, (HardwareSerial.printlnS w ai.serialPort "STOP_ALL").1)

/-- Move both eyes by the same amount. -/
def WallEAI.moveBothEyes (ai : WallEAI) (degrees : ℚ) (w : World) : WallEAI × World :=
  let r1 := ai.moveRightEye degrees w
  r1.1.moveLeftEye degrees r1.2

/-- Move both arms by the same amount. -/
def WallEAI.moveBothArms (ai : WallEAI) (degrees : ℚ) (w : World) : WallEAI × World :=
  let r1 := ai.moveLeftArm degrees w
  r1.1.moveRightArm degrees r1.2

/-- Move both wheels by the same amount. -/
def WallEAI.moveBothWheels (ai : WallEAI) (degrees : ℚ) (w : World) : WallEAI × World :=
  let r1 := ai.rotateLeftWheel degrees w
  r1.1.rotateRightWheel degrees r1.2

/-- Turn robot by rotating the wheels in opposite directions. -/
def WallEAI.turnRobot (ai : WallEAI) (degrees : ℚ) (w : World) : WallEAI × World :=
  let r1 := ai.rotateLeftWheel (-degrees) w
  r1.1.rotateRightWheel degrees r1.2

/-- Move robot forward by rotating both wheels. -/
def WallEAI.moveForward (ai : WallEAI) (degrees : ℚ) (w : World) : WallEAI × World :=
  ai.moveBothWheels degrees w

/-- Move robot backward by rotating both wheels. -/
def WallEAI.moveBackward (ai : WallEAI) (degrees : ℚ) (w : World) : WallEAI × World :=
  ai.moveBothWheels (-degrees) w

/-- Turn left by rotating the wheels in opposite directions. -/
def WallEAI.turnLeft (ai : WallEAI) (degrees : ℚ) (w : World) : WallEAI × World :=
  ai.turnRobot (-degrees) w

/-- Turn right by rotating the wheels in opposite directions. -/
def WallEAI.turnRight (ai : WallEAI) (degrees : ℚ) (w : World) : WallEAI × World :=
  ai.turnRobot degrees w

/-- Spin robot in place. -/
def WallEAI.spinRobot (ai : WallEAI) (degrees : ℚ) (w : World) : WallEAI × World :=
  ai.turnRobot degrees w

/-- Reset all servos to center positions. -/
def WallEAI.resetToCenter (ai : WallEAI) (w : World) : WallEAI × World :=
  (ai, (HardwareSerial.printlnS w ai.serialPort "RESET_CENTER").1)

/-- One encoder operation together with its argument, covering every public
method of the class. -/
inductive Cmd
  | rotateHead (d : ℚ)
  | moveNeckTop (d : ℚ)
  | moveNeckBottom (d : ℚ)
  | moveRightEye (d : ℚ)
  | moveLeftEye (d : ℚ)
  | moveLeftArm (d : ℚ)
  | moveRightArm (d : ℚ)
  | rotateLeftWheel (d : ℚ)
  | rotateRightWheel (d : ℚ)
  | stopAll
  | moveBothEyes (d : ℚ)
  | moveBothArms (d : ℚ)
  | moveBothWheels (d : ℚ)
  | turnRobot (d : ℚ)
  | moveForward (d : ℚ)
  | moveBackward (d : ℚ)
  | turnLeft (d : ℚ)
  | turnRight (d : ℚ)
  | spinRobot (d : ℚ)
  | resetToCenter

/-- Dispatch one operation of the encoder. -/
def WallEAI.run (ai : WallEAI) (c : Cmd) (w : World) : WallEAI × World :=
  match c with
  | .rotateHead d => ai.rotateHead d w
  | .moveNeckTop d => ai.moveNeckTop d w
  | .moveNeckBottom d => ai.moveNeckBottom d w
  | .moveRightEye d => ai.moveRightEye d w
  | .moveLeftEye d => ai.moveLeftEye d w
  | .moveLeftArm d => ai.moveLeftArm d w
  | .moveRightArm d => ai.moveRightArm d w
  | .rotateLeftWheel d => ai.rotateLeftWheel d w
  | .rotateRightWheel d => ai.rotateRightWheel d w
  | .stopAll => ai.stopAll w
  | .moveBothEyes d => ai.moveBothEyes d w
  | .moveBothArms d => ai.moveBothArms d w
  | .moveBothWheels d => ai.moveBothWheels d w
  | .turnRobot d => ai.turnRobot d w
  | .moveForward d => ai.moveForward d w
  | .moveBackward d => ai.moveBackward d w
  | .turnLeft d => ai.turnLeft d w
  | .turnRight d => ai.turnRight d w
  | .spinRobot d => ai.spinRobot d w
  | .resetToCenter => ai.resetToCenter w

/-- Run a list of raw writes on one sink, in order, discarding the per-write
results, exactly as the encoder's method bodies do. -/
def writeAll (w : World) (id : SinkId) : List String → World
  | [] => w
  | s :: rest => writeAll (w.write id s).1 id rest

/-- Concatenation of a list of written chunks. -/
def catChunks : List String → String
  | [] => ""
  | s :: rest => s ++ catChunks rest

/-- Specification-side description: the chunks each operation hands to the
transport, in order.  Derived from the method bodies; compared against them
in the refinement lemmas below. -/
def emitChunks : Cmd → List String
  | .rotateHead d => ["HEAD_ROTATE:", fmtF d ++ "\n"]
  | .moveNeckTop d => ["NECK_TOP:", fmtF d ++ "\n"]
  | .moveNeckBottom d => ["NECK_BOTTOM:", fmtF d ++ "\n"]
  | .moveRightEye d => ["RIGHT_EYE:", fmtF d ++ "\n"]
  | .moveLeftEye d => ["LEFT_EYE:", fmtF d ++ "\n"]
  | .moveLeftArm d => ["LEFT_ARM:", fmtF d ++ "\n"]
  | .moveRightArm d => ["RIGHT_ARM:", fmtF d ++ "\n"]
  | .rotateLeftWheel d => ["LEFT_WHEEL:", fmtF d ++ "\n"]
  | .rotateRightWheel d => ["RIGHT_WHEEL:", fmtF d ++ "\n"]
  | .stopAll => ["STOP_ALL\n"]
  | .moveBothEyes d => ["RIGHT_EYE:", fmtF d ++ "\n", "LEFT_EYE:", fmtF d ++ "\n"]
  | .moveBothArms d => ["LEFT_ARM:", fmtF d ++ "\n", "RIGHT_ARM:", fmtF d ++ "\n"]
  | .moveBothWheels d => ["LEFT_WHEEL:", fmtF d ++ "\n", "RIGHT_WHEEL:", fmtF d ++ "\n"]
  | .turnRobot d => ["LEFT_WHEEL:", fmtF (-d) ++ "\n", "RIGHT_WHEEL:", fmtF d ++ "\n"]
  | .moveForward d => ["LEFT_WHEEL:", fmtF d ++ "\n", "RIGHT_WHEEL:", fmtF d ++ "\n"]
  | .moveBackward d => ["LEFT_WHEEL:", fmtF (-d) ++ "\n", "RIGHT_WHEEL:", fmtF (-d) ++ "\n"]
  | .turnLeft d => ["LEFT_WHEEL:", fmtF d ++ "\n", "RIGHT_WHEEL:", fmtF (-d) ++ "\n"]
  | .turnRight d => ["LEFT_WHEEL:", fmtF (-d) ++ "\n", "RIGHT_WHEEL:", fmtF d ++ "\n"]
  | .spinRobot d => ["LEFT_WHEEL:", fmtF (-d) ++ "\n", "RIGHT_WHEEL:", fmtF d ++ "\n"]
  | .resetToCenter => ["RESET_CENTER\n"]

/-- Bytes an operation emits, as one string. -/
def emitStr (c : Cmd) : String :=
  catChunks (emitChunks c)

/-- Number of transport write attempts an operation makes. -/
def writeCount (c : Cmd) : Nat :=
  (emitChunks c).length

/-- The call returned the receiver unchanged, appended exactly the given
bytes to the receiver's sink, and touched nothing else in the world. -/
def EmitsOnly (ai : WallEAI) (w : World) (r : WallEAI × World) (s : String) : Prop :=
  r.1 = ai ∧
  (r.2.sinks ai.serialPort).written = (w.sinks ai.serialPort).written ++ s ∧
  (∀ j, j ≠ ai.serialPort → r.2.sinks j = w.sinks j) ∧
  r.2.ok = w.ok

/-- A world whose transports accept every write, with empty sinks. -/
def wOk : World :=
  { ok := fun _ _ => true, sinks := fun _ => ⟨"", 0⟩ }

/-- A world whose transport rejects exactly the first write attempt on every
sink and accepts all later ones, with empty sinks. -/
def wFail0 : World :=
  { ok := fun _ n => !(n == 0), sinks := fun _ => ⟨"", 0⟩ }

theorem write_ok_eq (w : World) (id : SinkId) (s : String) :
    (w.write id s).1.ok = w.ok := by
  unfold World.write
  split <;> rfl

theorem write_sinks_ne (w : World) (id j : SinkId) (s : String) (h : j ≠ id) :
    (w.write id s).1.sinks j = w.sinks j := by
  unfold World.write
  split <;> simp [Function.update_noteq h]

theorem write_attempts (w : World) (id : SinkId) (s : String) :
    ((w.write id s).1.sinks id).attempts = (w.sinks id).attempts + 1 := by
  unfold World.write
  split <;> simp

theorem write_written_ok (w : World) (id : SinkId) (s : String)
    (h : w.ok id (w.sinks id).attempts = true) :
    ((w.write id s).1.sinks id).written = (w.sinks id).written ++ s := by
  unfold World.write
  simp [h]

theorem writeAll_frame (id : SinkId) (l : List String) : ∀ (w : World),
    (writeAll w id l).ok = w.ok ∧
    ((writeAll w id l).sinks id).attempts = (w.sinks id).attempts + l.length ∧
    ∀ j, j ≠ id → (writeAll w id l).sinks j = w.sinks j := by
  induction l with
  | nil => intro w; exact ⟨rfl, rfl, fun j _ => rfl⟩
  | cons s rest ih =>
    intro w
    obtain ⟨h1, h2, h3⟩ := ih (w.write id s).1
    refine ⟨?_, ?_, ?_⟩
    · rw [writeAll, h1, write_ok_eq]
    · rw [writeAll, h2, write_attempts]
      simp [Nat.add_assoc, Nat.add_comm 1 rest.length]
    · intro j hj
      rw [writeAll, h3 j hj, write_sinks_ne _ _ _ _ hj]

theorem writeAll_written (id : SinkId) (l : List String) : ∀ (w : World),
    (∀ n, w.ok id n = true) →
    ((writeAll w id l).sinks id).written = (w.sinks id).written ++ catChunks l := by
  induction l with
  | nil =>
    intro w _
    rw [writeAll, catChunks, String.append_empty]
  | cons s rest ih =>
    intro w h
    have hw : ∀ n, (w.write id s).1.ok id n = true := by
      intro n; rw [write_ok_eq]; exact h n
    rw [writeAll, ih _ hw, write_written_ok _ _ _ (h _), catChunks,
      String.append_assoc]

theorem emitsOnly_writeAll (ai : WallEAI) (w : World) (l : List String) (s : String)
    (h : ∀ n, w.ok ai.serialPort n = true) (hs : catChunks l = s) :
    EmitsOnly ai w (ai, writeAll w ai.serialPort l) s := by
  subst hs
  obtain ⟨h1, _, h3⟩ := writeAll_frame ai.serialPort l w
  exact ⟨rfl, writeAll_written ai.serialPort l w h, h3, h1⟩

theorem rotateHead_chunks (ai : WallEAI) (d : ℚ) (w : World) :
    ai.rotateHead d w = (ai, writeAll w ai.serialPort ["HEAD_ROTATE:", fmtF d ++ "\n"]) :=
  rfl

theorem moveNeckTop_chunks (ai : WallEAI) (d : ℚ) (w : World) :
    ai.moveNeckTop d w = (ai, writeAll w ai.serialPort ["NECK_TOP:", fmtF d ++ "\n"]) :=
  rfl

theorem moveNeckBottom_chunks (ai : WallEAI) (d : ℚ) (w : World) :
    ai.moveNeckBottom d w = (ai, writeAll w ai.serialPort ["NECK_BOTTOM:", fmtF d ++ "\n"]) :=
  rfl

theorem moveRightEye_chunks (ai : WallEAI) (d : ℚ) (w : World) :
    ai.moveRightEye d w = (ai, writeAll w ai.serialPort ["RIGHT_EYE:", fmtF d ++ "\n"]) :=
  rfl

theorem moveLeftEye_chunks (ai : WallEAI) (d : ℚ) (w : World) :
    ai.moveLeftEye d w = (ai, writeAll w ai.serialPort ["LEFT_EYE:", fmtF d ++ "\n"]) :=
  rfl

theorem moveLeftArm_chunks (ai : WallEAI) (d : ℚ) (w : World) :
    ai.moveLeftArm d w = (ai, writeAll w ai.serialPort ["LEFT_ARM:", fmtF d ++ "\n"]) :=
  rfl

theorem moveRightArm_chunks (ai : WallEAI) (d : ℚ) (w : World) :
    ai.moveRightArm d w = (ai, writeAll w ai.serialPort ["RIGHT_ARM:", fmtF d ++ "\n"]) :=
  rfl

theorem rotateLeftWheel_chunks (ai : WallEAI) (d : ℚ) (w : World) :
    ai.rotateLeftWheel d w = (ai, writeAll w ai.serialPort ["LEFT_WHEEL:", fmtF d ++ "\n"]) :=
  rfl

theorem rotateRightWheel_chunks (ai : WallEAI) (d : ℚ) (w : World) :
    ai.rotateRightWheel d w = (ai, writeAll w ai.serialPort ["RIGHT_WHEEL:", fmtF d ++ "\n"]) :=
  rfl

theorem stopAll_chunks (ai : WallEAI) (w : World) :
    ai.stopAll w = (ai, writeAll w ai.serialPort ["STOP_ALL\n"]) :=
  rfl

theorem moveBothEyes_chunks (ai : WallEAI) (d : ℚ) (w : World) :
    ai.moveBothEyes d w
      = (ai, writeAll w ai.serialPort ["RIGHT_EYE:", fmtF d ++ "\n", "LEFT_EYE:", fmtF d ++ "\n"]) :=
  rfl

theorem moveBothArms_chunks (ai : WallEAI) (d : ℚ) (w : World) :
    ai.moveBothArms d w
      = (ai, writeAll w ai.serialPort ["LEFT_ARM:", fmtF d ++ "\n", "RIGHT_ARM:", fmtF d ++ "\n"]) :=
  rfl

theorem moveBothWheels_chunks (ai : WallEAI) (d : ℚ) (w : World) :
    ai.moveBothWheels d w
      = (ai, writeAll w ai.serialPort ["LEFT_WHEEL:", fmtF d ++ "\n", "RIGHT_WHEEL:", fmtF d ++ "\n"]) :=
  rfl

theorem turnRobot_chunks (ai : WallEAI) (d : ℚ) (w : World) :
    ai.turnRobot d w
      = (ai, writeAll w ai.serialPort ["LEFT_WHEEL:", fmtF (-d) ++ "\n", "RIGHT_WHEEL:", fmtF d ++ "\n"]) :=
  rfl

theorem moveForward_chunks (ai : WallEAI) (d : ℚ) (w : World) :
    ai.moveForward d w
      = (ai, writeAll w ai.serialPort ["LEFT_WHEEL:", fmtF d ++ "\n", "RIGHT_WHEEL:", fmtF d ++ "\n"]) :=
  rfl

theorem moveBackward_chunks (ai : WallEAI) (d : ℚ) (w : World) :
    ai.moveBackward d w
      = (ai, writeAll w ai.serialPort ["LEFT_WHEEL:", fmtF (-d) ++ "\n", "RIGHT_WHEEL:", fmtF (-d) ++ "\n"]) :=
  rfl

theorem turnLeft_chunks (ai : WallEAI) (d : ℚ) (w : World) :
    ai.turnLeft d w
      = (ai, writeAll w ai.serialPort ["LEFT_WHEEL:", fmtF d ++ "\n", "RIGHT_WHEEL:", fmtF (-d) ++ "\n"]) := by
  have h : ai.turnLeft d w
      = (ai, writeAll w ai.serialPort ["LEFT_WHEEL:", fmtF (-(-d)) ++ "\n", "RIGHT_WHEEL:", fmtF (-d) ++ "\n"]) :=
    rfl
  rwa [neg_neg] at h

theorem turnRight_chunks (ai : WallEAI) (d : ℚ) (w : World) :
    ai.turnRight d w
      = (ai, writeAll w ai.serialPort ["LEFT_WHEEL:", fmtF (-d) ++ "\n", "RIGHT_WHEEL:", fmtF d ++ "\n"]) :=
  rfl

theorem spinRobot_chunks (ai : WallEAI) (d : ℚ) (w : World) :
    ai.spinRobot d w
      = (ai, writeAll w ai.serialPort ["LEFT_WHEEL:", fmtF (-d) ++ "\n", "RIGHT_WHEEL:", fmtF d ++ "\n"]) :=
  rfl

theorem resetToCenter_chunks (ai : WallEAI) (w : World) :
    ai.resetToCenter w = (ai, writeAll w ai.serialPort ["RESET_CENTER\n"]) :=
  rfl

theorem run_chunks (ai : WallEAI) (c : Cmd) (w : World) :
    ai.run c w = (ai, writeAll w ai.serialPort (emitChunks c)) := by
  cases c with
  | rotateHead d => exact rotateHead_chunks ai d w
  | moveNeckTop d => exact moveNeckTop_chunks ai d w
  | moveNeckBottom d => exact moveNeckBottom_chunks ai d w
  | moveRightEye d => exact moveRightEye_chunks ai d w
  | moveLeftEye d => exact moveLeftEye_chunks ai d w
  | moveLeftArm d => exact moveLeftArm_chunks ai d w
  | moveRightArm d => exact moveRightArm_chunks ai d w
  | rotateLeftWheel d => exact rotateLeftWheel_chunks ai d w
  | rotateRightWheel d => exact rotateRightWheel_chunks ai d w
  | stopAll => exact stopAll_chunks ai w
  | moveBothEyes d => exact moveBothEyes_chunks ai d w
  | moveBothArms d => exact moveBothArms_chunks ai d w
  | moveBothWheels d => exact moveBothWheels_chunks ai d w
  | turnRobot d => exact turnRobot_chunks ai d w
  | moveForward d => exact moveForward_chunks ai d w
  | moveBackward d => exact moveBackward_chunks ai d w
  | turnLeft d => exact turnLeft_chunks ai d w
  | turnRight d => exact turnRight_chunks ai d w
  | spinRobot d => exact spinRobot_chunks ai d w
  | resetToCenter => exact resetToCenter_chunks ai w

theorem digitChar_isDigit (m : Nat) (h : m < 10) : (Nat.digitChar m).isDigit = true := by
  interval_cases m <;> decide

theorem toDigitsCore_all_digits (fuel : Nat) : ∀ (n : Nat) (ds : List Char),
    (∀ c ∈ ds, c.isDigit = true) →
    ∀ c ∈ Nat.toDigitsCore 10 fuel n ds, c.isDigit = true := by
  induction fuel with
  | zero =>
    intro n ds hds
    simpa [Nat.toDigitsCore] using hds
  | succ fuel ih =>
    intro n ds hds c hc
    simp only [Nat.toDigitsCore] at hc
    have hd : ∀ e ∈ (Nat.digitChar (n % 10) :: ds), e.isDigit = true := by
      intro e he
      rcases List.mem_cons.mp he with he | he
      · subst he
        exact digitChar_isDigit _ (Nat.mod_lt _ (by norm_num))
      · exact hds e he
    by_cases h10 : n / 10 = 0
    · rw [if_pos h10] at hc
      exact hd c hc
    · rw [if_neg h10] at hc
      exact ih _ _ hd c hc

theorem toDigitsCore_ne_nil (fuel : Nat) : ∀ (n : Nat) (ds : List Char),
    ds ≠ [] → Nat.toDigitsCore 10 fuel n ds ≠ [] := by
  induction fuel with
  | zero =>
    intro n ds h
    simpa [Nat.toDigitsCore] using h
  | succ fuel ih =>
    intro n ds _
    simp only [Nat.toDigitsCore]
    by_cases h10 : n / 10 = 0
    · rw [if_pos h10]
      simp
    · rw [if_neg h10]
      exact ih _ _ (by simp)

theorem toDigits_ne_nil (n : Nat) : Nat.toDigits 10 n ≠ [] := by
  show Nat.toDigitsCore 10 (n + 1) n [] ≠ []
  simp only [Nat.toDigitsCore]
  by_cases h10 : n / 10 = 0
  · rw [if_pos h10]
    simp
  · rw [if_neg h10]
    exact toDigitsCore_ne_nil _ _ _ (by simp)

theorem head_append_ne_minus (l l' : List Char)
    (h1 : l ≠ []) (h2 : ∀ c ∈ l, c.isDigit = true) : (l ++ l').head? ≠ some '-' := by
  cases l with
  | nil => exact absurd rfl h1
  | cons c t =>
    simp only [List.cons_append, List.head?_cons]
    intro hc
    have hdig : c.isDigit = true := h2 c (by simp)
    have : c = '-' := by simpa using hc
    subst this
    exact absurd hdig (by decide)

theorem repr_append_head_ne_minus (a : Nat) (s : String) :
    (Nat.repr a ++ s).data.head? ≠ some '-' := by
  rw [String.data_append]
  have hdata : (Nat.repr a).data = Nat.toDigits 10 a := rfl
  rw [hdata]
  exact head_append_ne_minus _ _ (toDigits_ne_nil a)
    (toDigitsCore_all_digits (a + 1) a [] (by simp))

theorem fmt2_head_ne_minus (q : ℚ) : (fmt2 q).data.head? ≠ some '-' := by
  unfold fmt2
  exact repr_append_head_ne_minus _ _

theorem fmtF_head_minus_iff (q : ℚ) : ((fmtF q).data.head? = some '-') ↔ q < 0 := by
  unfold fmtF
  by_cases h : q < 0
  · rw [if_pos h]
    refine iff_of_true ?_ h
    rw [String.data_append]
    rfl
  · rw [if_neg h]
    exact iff_of_false (fmt2_head_ne_minus q) h

theorem fmt2_of_num_den (q : ℚ) (N : ℤ) (D : ℕ)
    (h1 : (q * 100 + 1 / 2).num = N) (h2 : (q * 100 + 1 / 2).den = D) :
    fmt2 q = Nat.repr (N.toNat / D / 100)
      ++ ("." ++ Nat.repr (N.toNat / D / 10 % 10) ++ Nat.repr (N.toNat / D % 10)) := by
  simp only [fmt2]
  rw [h1, h2]

theorem fmtF_45 : fmtF 45 = "45.00" := by
  unfold fmtF
  rw [if_neg (by norm_num : ¬ ((45:ℚ) < 0))]
  rw [fmt2_of_num_den 45 9001 2 (by norm_num) (by norm_num)]
  decide

theorem fmtF_neg90 : fmtF (-90) = "-90.00" := by
  unfold fmtF
  rw [if_pos (by norm_num : ((-90:ℚ) < 0))]
  rw [fmt2_of_num_den (-(-90)) 18001 2 (by norm_num) (by norm_num)]
  decide

theorem emitsOnly_token_line (ai : WallEAI) (w : World) (tok : String) (d : ℚ)
    (h : ∀ n, w.ok ai.serialPort n = true) :
    EmitsOnly ai w (ai, writeAll w ai.serialPort [tok, fmtF d ++ "\n"])
      (tok ++ fmtF d ++ "\n") :=
  emitsOnly_writeAll ai w _ _ h
    (by simp only [catChunks, String.append_assoc, String.append_empty])

/-- Claim C1: for every motor identifier m in the fixed nine-element set and
every magnitude d (including 0, negative and large values), the corresponding
primitive call emits to the sink exactly one newline-terminated line
TOKEN(m):d with the wire token of the spec's table, and emits nothing
else. -/
theorem C1_primitive_lines (ai : WallEAI) (d : ℚ) (w : World)
    (h : ∀ n, w.ok ai.serialPort n = true) :
    EmitsOnly ai w (ai.rotateHead d w) ("HEAD_ROTATE:" ++ fmtF d ++ "\n") ∧
    EmitsOnly ai w (ai.moveNeckTop d w) ("NECK_TOP:" ++ fmtF d ++ "\n") ∧
    EmitsOnly ai w (ai.moveNeckBottom d w) ("NECK_BOTTOM:" ++ fmtF d ++ "\n") ∧
    EmitsOnly ai w (ai.moveRightEye d w) ("RIGHT_EYE:" ++ fmtF d ++ "\n") ∧
    EmitsOnly ai w (ai.moveLeftEye d w) ("LEFT_EYE:" ++ fmtF d ++ "\n") ∧
    EmitsOnly ai w (ai.moveLeftArm d w) ("LEFT_ARM:" ++ fmtF d ++ "\n") ∧
    EmitsOnly ai w (ai.moveRightArm d w) ("RIGHT_ARM:" ++ fmtF d ++ "\n") ∧
    EmitsOnly ai w (ai.rotateLeftWheel d w) ("LEFT_WHEEL:" ++ fmtF d ++ "\n") ∧
    EmitsOnly ai w (ai.rotateRightWheel d w) ("RIGHT_WHEEL:" ++ fmtF d ++ "\n") := by
  refine ⟨?_, ?_, ?_, ?_, ?_, ?_, ?_, ?_, ?_⟩
  · rw [rotateHead_chunks]
    exact emitsOnly_token_line ai w "HEAD_ROTATE:" d h
  · rw [moveNeckTop_chunks]
    exact emitsOnly_token_line ai w "NECK_TOP:" d h
  · rw [moveNeckBottom_chunks]
    exact emitsOnly_token_line ai w "NECK_BOTTOM:" d h
  · rw [moveRightEye_chunks]
    exact emitsOnly_token_line ai w "RIGHT_EYE:" d h
  · rw [moveLeftEye_chunks]
    exact emitsOnly_token_line ai w "LEFT_EYE:" d h
  · rw [moveLeftArm_chunks]
    exact emitsOnly_token_line ai w "LEFT_ARM:" d h
  · rw [moveRightArm_chunks]
    exact emitsOnly_token_line ai w "RIGHT_ARM:" d h
  · rw [rotateLeftWheel_chunks]
    exact emitsOnly_token_line ai w "LEFT_WHEEL:" d h
  · rw [rotateRightWheel_chunks]
    exact emitsOnly_token_line ai w "RIGHT_WHEEL:" d h

/-- Witness for claim C1 at the concrete input d = 45 on an accepting
world. -/
theorem C1_primitive_lines_witness :
    (∀ n, wOk.ok (WallEAI.mk 0).serialPort n = true) ∧
    EmitsOnly (WallEAI.mk 0) wOk ((WallEAI.mk 0).rotateHead 45 wOk)
      ("HEAD_ROTATE:" ++ fmtF 45 ++ "\n") :=
  ⟨fun _ => rfl, (C1_primitive_lines (WallEAI.mk 0) 45 wOk (fun _ => rfl)).1⟩

/-- Claim C2: for every magnitude d, turnRobot d emits exactly two lines, in
order: LEFT_WHEEL with the sign-flipped argument, then RIGHT_WHEEL with the
argument. -/
theorem C2_turnRobot_lines (ai : WallEAI) (d : ℚ) (w : World)
    (h : ∀ n, w.ok ai.serialPort n = true) :
    EmitsOnly ai w (ai.turnRobot d w)
      ("LEFT_WHEEL:" ++ fmtF (-d) ++ "\n" ++ "RIGHT_WHEEL:" ++ fmtF d ++ "\n") := by
  rw [turnRobot_chunks]
  exact emitsOnly_writeAll ai w _ _ h
    (by simp only [catChunks, String.append_assoc, String.append_empty])

/-- Witness for claim C2 at the concrete input d = 30 on an accepting
world. -/
theorem C2_turnRobot_lines_witness :
    (∀ n, wOk.ok (WallEAI.mk 0).serialPort n = true) ∧
    EmitsOnly (WallEAI.mk 0) wOk ((WallEAI.mk 0).turnRobot 30 wOk)
      ("LEFT_WHEEL:" ++ fmtF (-30) ++ "\n" ++ "RIGHT_WHEEL:" ++ fmtF 30 ++ "\n") :=
  ⟨fun _ => rfl, C2_turnRobot_lines (WallEAI.mk 0) 30 wOk (fun _ => rfl)⟩

/-- Claim C3: each convenience alias equals its stated composition, with
byte-identical sink output: moveForward d is moveBothWheels d, moveBackward d
is moveBothWheels (-d), turnLeft d is turnRobot (-d) and emits LEFT_WHEEL:d
then RIGHT_WHEEL:-d, turnRight d is turnRobot d, spinRobot d is
turnRobot d. -/
theorem C3_aliases (ai : WallEAI) (d : ℚ) (w : World) :
    ai.moveForward d w = ai.moveBothWheels d w ∧
    ai.moveBackward d w = ai.moveBothWheels (-d) w ∧
    ai.turnLeft d w = ai.turnRobot (-d) w ∧
    ai.turnRight d w = ai.turnRobot d w ∧
    ai.spinRobot d w = ai.turnRobot d w ∧
    ((∀ n, w.ok ai.serialPort n = true) →
      EmitsOnly ai w (ai.turnLeft d w)
        ("LEFT_WHEEL:" ++ fmtF d ++ "\n" ++ "RIGHT_WHEEL:" ++ fmtF (-d) ++ "\n")) := by
  refine ⟨rfl, rfl, rfl, rfl, rfl, fun h => ?_⟩
  rw [turnLeft_chunks]
  exact emitsOnly_writeAll ai w _ _ h
    (by simp only [catChunks, String.append_assoc, String.append_empty])

/-- Witness for claim C3 at the concrete input d = 45 on an accepting
world. -/
theorem C3_aliases_witness :
    (WallEAI.mk 0).moveForward 45 wOk = (WallEAI.mk 0).moveBothWheels 45 wOk ∧
    EmitsOnly (WallEAI.mk 0) wOk ((WallEAI.mk 0).turnLeft 45 wOk)
      ("LEFT_WHEEL:" ++ fmtF 45 ++ "\n" ++ "RIGHT_WHEEL:" ++ fmtF (-45) ++ "\n") :=
  ⟨(C3_aliases (WallEAI.mk 0) 45 wOk).1,
    (C3_aliases (WallEAI.mk 0) 45 wOk).2.2.2.2.2 (fun _ => rfl)⟩

/-- Claim C5: for every magnitude d, moveBothEyes d emits exactly two lines,
in order: RIGHT_EYE:d then LEFT_EYE:d, both with the same magnitude. -/
theorem C5_moveBothEyes_lines (ai : WallEAI) (d : ℚ) (w : World)
    (h : ∀ n, w.ok ai.serialPort n = true) :
    EmitsOnly ai w (ai.moveBothEyes d w)
      ("RIGHT_EYE:" ++ fmtF d ++ "\n" ++ "LEFT_EYE:" ++ fmtF d ++ "\n") := by
  rw [moveBothEyes_chunks]
  exact emitsOnly_writeAll ai w _ _ h
    (by simp only [catChunks, String.append_assoc, String.append_empty])

/-- Witness for claim C5 at the concrete input d = 10 on an accepting
world. -/
theorem C5_moveBothEyes_lines_witness :
    (∀ n, wOk.ok (WallEAI.mk 0).serialPort n = true) ∧
    EmitsOnly (WallEAI.mk 0) wOk ((WallEAI.mk 0).moveBothEyes 10 wOk)
      ("RIGHT_EYE:" ++ fmtF 10 ++ "\n" ++ "LEFT_EYE:" ++ fmtF 10 ++ "\n") :=
  ⟨fun _ => rfl, C5_moveBothEyes_lines (WallEAI.mk 0) 10 wOk (fun _ => rfl)⟩

/-- Claim C6: stopAll emits exactly the single newline-terminated line
STOP_ALL and resetToCenter exactly the single line RESET_CENTER; neither line
carries a colon or a magnitude, and no other write occurs. -/
theorem C6_parameterless_lines (ai : WallEAI) (w : World)
    (h : ∀ n, w.ok ai.serialPort n = true) :
    EmitsOnly ai w (ai.stopAll w) "STOP_ALL\n" ∧
    EmitsOnly ai w (ai.resetToCenter w) "RESET_CENTER\n" ∧
    ¬ (':' ∈ "STOP_ALL\n".data) ∧ ¬ (':' ∈ "RESET_CENTER\n".data) := by
  refine ⟨?_, ?_, by decide, by decide⟩
  · rw [stopAll_chunks]
    exact emitsOnly_writeAll ai w _ _ h
      (by simp only [catChunks, String.append_empty])
  · rw [resetToCenter_chunks]
    exact emitsOnly_writeAll ai w _ _ h
      (by simp only [catChunks, String.append_empty])

/-- Witness for claim C6 on an accepting world. -/
theorem C6_parameterless_lines_witness :
    (∀ n, wOk.ok (WallEAI.mk 0).serialPort n = true) ∧
    EmitsOnly (WallEAI.mk 0) wOk ((WallEAI.mk 0).stopAll wOk) "STOP_ALL\n" :=
  ⟨fun _ => rfl, (C6_parameterless_lines (WallEAI.mk 0) wOk (fun _ => rfl)).1⟩

/-- Claim C9: for every magnitude d, moveBothArms d emits exactly two lines,
in order: LEFT_ARM:d then RIGHT_ARM:d, the opposite left/right ordering from
moveBothEyes. -/
theorem C9_moveBothArms_lines (ai : WallEAI) (d : ℚ) (w : World)
    (h : ∀ n, w.ok ai.serialPort n = true) :
    EmitsOnly ai w (ai.moveBothArms d w)
      ("LEFT_ARM:" ++ fmtF d ++ "\n" ++ "RIGHT_ARM:" ++ fmtF d ++ "\n") := by
  rw [moveBothArms_chunks]
  exact emitsOnly_writeAll ai w _ _ h
    (by simp only [catChunks, String.append_assoc, String.append_empty])

/-- Witness for claim C9 at the concrete input d = 20 on an accepting
world. -/
theorem C9_moveBothArms_lines_witness :
    (∀ n, wOk.ok (WallEAI.mk 0).serialPort n = true) ∧
    EmitsOnly (WallEAI.mk 0) wOk ((WallEAI.mk 0).moveBothArms 20 wOk)
      ("LEFT_ARM:" ++ fmtF 20 ++ "\n" ++ "RIGHT_ARM:" ++ fmtF 20 ++ "\n") :=
  ⟨fun _ => rfl, C9_moveBothArms_lines (WallEAI.mk 0) 20 wOk (fun _ => rfl)⟩

/-- Claim C7: the magnitude in every emitted line is the argument under the
modelled default numeric formatting, with a leading minus sign exactly when
the value is negative; in particular rotateHead 45 emits the line
HEAD_ROTATE:45.00 and rotateHead (-90) emits the line HEAD_ROTATE:-90.00. -/
theorem C7_formatting :
    (∀ d : ℚ, ((fmtF d).data.head? = some '-' ↔ d < 0)) ∧
    fmtF 45 = "45.00" ∧ fmtF (-90) = "-90.00" ∧
    ∀ (ai : WallEAI) (w : World), (∀ n, w.ok ai.serialPort n = true) →
      EmitsOnly ai w (ai.rotateHead 45 w) "HEAD_ROTATE:45.00\n" ∧
      EmitsOnly ai w (ai.rotateHead (-90) w) "HEAD_ROTATE:-90.00\n" := by
  refine ⟨fmtF_head_minus_iff, fmtF_45, fmtF_neg90, fun ai w h => ⟨?_, ?_⟩⟩
  · have h1 : EmitsOnly ai w (ai.rotateHead 45 w)
        ("HEAD_ROTATE:" ++ fmtF 45 ++ "\n") := by
      rw [rotateHead_chunks]
      exact emitsOnly_token_line ai w "HEAD_ROTATE:" 45 h
    rwa [show ("HEAD_ROTATE:" ++ fmtF 45 ++ "\n") = "HEAD_ROTATE:45.00\n" by
      rw [fmtF_45]; decide] at h1
  · have h1 : EmitsOnly ai w (ai.rotateHead (-90) w)
        ("HEAD_ROTATE:" ++ fmtF (-90) ++ "\n") := by
      rw [rotateHead_chunks]
      exact emitsOnly_token_line ai w "HEAD_ROTATE:" (-90) h
    rwa [show ("HEAD_ROTATE:" ++ fmtF (-90) ++ "\n") = "HEAD_ROTATE:-90.00\n" by
      rw [fmtF_neg90]; decide] at h1

/-- Witness for claim C7 on an accepting world. -/
theorem C7_formatting_witness :
    (∀ n, wOk.ok (WallEAI.mk 0).serialPort n = true) ∧
    EmitsOnly (WallEAI.mk 0) wOk ((WallEAI.mk 0).rotateHead 45 wOk)
      "HEAD_ROTATE:45.00\n" :=
  ⟨fun _ => rfl, (C7_formatting.2.2.2 (WallEAI.mk 0) wOk (fun _ => rfl)).1⟩

/-- Claim C8: every encoder call is stateless and deterministic: the bytes an
operation appends to its sink are a function of the operation and argument
alone, independent of the prior contents of the sink and hence of any prior
call history; identical calls append identical lines. -/
theorem C8_stateless (ai : WallEAI) (c : Cmd) (w : World)
    (h : ∀ n, w.ok ai.serialPort n = true) :
    ((ai.run c w).2.sinks ai.serialPort).written
      = (w.sinks ai.serialPort).written ++ emitStr c := by
  rw [run_chunks]
  exact writeAll_written ai.serialPort (emitChunks c) w h

/-- Witness for claim C8 at a concrete operation on an accepting world. -/
theorem C8_stateless_witness :
    (∀ n, wOk.ok (WallEAI.mk 0).serialPort n = true) ∧
    (((WallEAI.mk 0).run (Cmd.rotateHead 45) wOk).2.sinks 0).written
      = (wOk.sinks 0).written ++ emitStr (Cmd.rotateHead 45) :=
  ⟨fun _ => rfl, C8_stateless (WallEAI.mk 0) (Cmd.rotateHead 45) wOk (fun _ => rfl)⟩

/-- Claim C10: no operation modifies the encoder's own state: the serialPort
handle set at construction is the only field of WallEAI, every operation
returns the receiver unchanged, leaves the acceptance oracle unchanged, and
writes only to the sink injected at construction. -/
theorem C10_frame (ai : WallEAI) (c : Cmd) (w : World) :
    (ai.run c w).1 = ai ∧
    (ai.run c w).2.ok = w.ok ∧
    ∀ j, j ≠ ai.serialPort → (ai.run c w).2.sinks j = w.sinks j := by
  rw [run_chunks]
  obtain ⟨h1, _, h3⟩ := writeAll_frame ai.serialPort (emitChunks c) w
  exact ⟨rfl, h1, h3⟩

/-- Witness for claim C10 at a concrete operation and a concrete foreign
sink. -/
theorem C10_frame_witness :
    (1 : Nat) ≠ (WallEAI.mk 0).serialPort ∧
    ((WallEAI.mk 0).run Cmd.stopAll wOk).2.sinks 1 = wOk.sinks 1 :=
  ⟨by decide, (C10_frame (WallEAI.mk 0) Cmd.stopAll wOk).2.2 1 (by decide)⟩

/-- Claim C4 counterexample: with a transport that rejects exactly the first
write attempt, rotateHead 45 does not stop and does not report anything: the
attempted first chunk is lost, the call still performs its second write,
which the transport accepts, and the call returns the receiver exactly as in
the fully successful case.  Under the claim the call would have reported the
failure and emitted no additional write, leaving the sink with no accepted
bytes and one attempt. -/
theorem C4_counterexample :
    wFail0.ok 0 0 = false ∧
    ((WallEAI.mk 0).rotateHead 45 wFail0).1 = WallEAI.mk 0 ∧
    ((WallEAI.mk 0).rotateHead 45 wFail0).2.sinks 0 = Sink.mk "45.00\n" 2 ∧
    ((WallEAI.mk 0).rotateHead 45 wFail0).2.sinks 0 ≠ Sink.mk "" 1 := by
  refine ⟨rfl, rfl, ?_, ?_⟩
  · rw [rotateHead_chunks, fmtF_45]
    decide
  · rw [rotateHead_chunks, fmtF_45]
    decide

/-- Claim C4 as amended: a failed sink write causes no retry and no
buffering: every operation performs a number of write attempts fixed by the
operation alone, independent of transport failures, later writes of the same
call are still attempted, and the failure is not reported to the caller (the
operations return the receiver unchanged and discard the transport's
per-write result); the acceptance oracle is never consulted beyond those
attempts and no input is rejected by validation. -/
theorem C4_no_retry_no_report (ai : WallEAI) (c : Cmd) (w : World) :
    ((ai.run c w).2.sinks ai.serialPort).attempts
      = (w.sinks ai.serialPort).attempts + writeCount c ∧
    (ai.run c w).1 = ai ∧
    (ai.run c w).2.ok = w.ok := by
  rw [run_chunks]
  obtain ⟨h1, h2, _⟩ := writeAll_frame ai.serialPort (emitChunks c) w
  exact ⟨h2, rfl, h1⟩
